import Mathlib

/-!
Verification of `assets/send_email_with_pdf.py`: a shallow embedding of the
script in Lean 4, with theorems settling the specification claims about it.

Modelling conventions:
- Machine file sizes are natural numbers of bytes.  The script stores sizes
  rounded to one decimal of a megabyte (`round(bytes / 1024**2, 1)`); we
  represent such a rounded size as an integer number of tenths of a megabyte,
  computed with the exact half-to-even rounding that Python `round` uses.
- Python strings are Lean `String`s; the string operations the script uses
  (`split`, `startswith`, `endswith`, `in`, `lower`, `join`, `Path.suffix`)
  are implemented below over the character list of the string, matching the
  Python semantics on the relevant inputs, so that every definition is
  executable by the kernel.
- Filesystem state is passed explicitly: each filesystem query the script
  performs (existence of a directory, recursive file listing, direct
  children, the attachment file read on a given attempt) is a parameter of
  the embedded function.
- The SMTP transport is a black box: an oracle assigns every attempt index
  one of three outcomes (success, authentication error, other error),
  mirroring the three exception branches of `send_email`.
-/

namespace SendEmailPdf

/-- Half-to-even rounding of the rational n / d (d positive), as Python
`round` computes it on an exact value. -/
def pyRoundDiv (n d : Nat) : Nat :=
  let q := n / d
  let r := n % d
  if 2 * r < d then q
  else if d < 2 * r then q + 1
  else if q % 2 = 0 then q else q + 1

/-- `get_file_size_mb`: bytes to megabytes rounded to one decimal, kept as an
integer number of tenths of a megabyte (45.0 MB is represented as 450). -/
def get_file_size_deciMB (size_bytes : Nat) : Nat :=
  pyRoundDiv (size_bytes * 10) (1024 * 1024)

/-- Configured attachment size limit in MB (`ATTACH_LIMIT_MB = 45`). -/
def ATTACH_LIMIT_MB : Nat := 45

/-- Configured number of retries (`MAX_RETRIES = 1`). -/
def MAX_RETRIES : Nat := 1

/-- Configured delay between attempts in seconds (`RETRY_DELAY = 3`). -/
def RETRY_DELAY : Nat := 3

/-! ### String operations used by the script, over character lists -/

/-- Auxiliary for `strSplitOnChar`: accumulates the current segment
reversed. -/
def splitCharAux (sep : Char) : List Char → List Char → List (List Char)
  | [], acc => [acc.reverse]
  | c :: cs, acc =>
    if c = sep then acc.reverse :: splitCharAux sep cs []
    else splitCharAux sep cs (c :: acc)

/-- Python `s.split(sep)` for a one-character separator: splits on every
occurrence and keeps empty segments, so the result is never empty. -/
def strSplitOnChar (sep : Char) (s : String) : List String :=
  (splitCharAux sep s.data []).map fun l => ⟨l⟩

/-- Python `s.startswith(p)`. -/
def strStartsWith (s p : String) : Bool :=
  p.data.isPrefixOf s.data

/-- Python `s.endswith(p)`. -/
def strEndsWith (s p : String) : Bool :=
  p.data.reverse.isPrefixOf s.data.reverse

/-- Python `needle in hay` for strings: substring containment. -/
def strContainsSub (hay needle : String) : Bool :=
  go needle.data hay.data
where
  /-- Checks whether the first list occurs as a contiguous sublist of the
  second. -/
  go (n : List Char) : List Char → Bool
    | [] => n.isEmpty
    | c :: t => n.isPrefixOf (c :: t) || go n t

/-- Python `s.lower()` (the script only relies on ASCII lowering). -/
def strToLower (s : String) : String :=
  ⟨s.data.map Char.toLower⟩

/-- Python `sep.join(parts)`. -/
def strJoin (sep : String) (parts : List String) : String :=
  ⟨List.intercalate sep.data (parts.map String.data)⟩

/-- `pathlib.PurePath.suffix` of a file name: the extension from the last
dot, provided the dot is neither the first nor the last character;
otherwise the empty string. -/
def pySuffix (name : String) : String :=
  let cs := name.data
  match cs.reverse.findIdx? (fun c => c = '.') with
  | none => ""
  | some j =>
    let i := cs.length - 1 - j
    if 0 < i ∧ i < cs.length - 1 then ⟨cs.drop i⟩ else ""

/-- Lexicographic comparison of character lists by code point, the order
Python uses to compare strings (and `sorted` uses on paths). -/
def charListLe : List Char → List Char → Bool
  | [], _ => true
  | _ :: _, [] => false
  | a :: as, b :: bs =>
    if a.toNat < b.toNat then true
    else if b.toNat < a.toNat then false
    else charListLe as bs

/-- Path comparison used when the script sorts scan results. -/
def pathLe (a b : String) : Bool :=
  charListLe a.data b.data

/-! ### The mail message and `send_email` -/

/-- State of the attachment file on disk at one moment: its base name, its
bytes (abstracted as a string) and its size reported by the filesystem. -/
structure FileData where
  name : String
  content : String
  size : Nat
deriving DecidableEq

/-- The MIME message `send_email` builds: sender, recipient, subject, the
plain-text body part, and the optional attachment part. -/
structure EmailMsg where
  sender : String
  recipient : String
  subject : String
  bodyText : String
  attachment : Option FileData
deriving DecidableEq

/-- Message construction in `send_email` (lines 277-300): multipart message
with From, To, Subject and body; the attachment is added only when an
attachment path was given, the file exists (both encoded by `attachState`
being `some`), and its rounded size is at most the limit. -/
def buildMsg (emailFrom emailTo title content : String)
    (attachState : Option FileData) : EmailMsg :=
  let base : EmailMsg := ⟨emailFrom, emailTo, title, content, none⟩
  match attachState with
  | none => base
  | some fd =>
    if get_file_size_deciMB fd.size ≤ ATTACH_LIMIT_MB * 10 then
      { base with attachment := some fd }
    else base

/-- Outcome of one SMTP attempt: the three exception branches of
`send_email`. -/
inductive SendOutcome
  | success
  | authError
  | otherError
deriving DecidableEq

/-- Observable result of a `send_email` call: the boolean it returns, the
number of attempts made, the total time slept between attempts, and the
message built at each attempt, in order. -/
structure SendResult where
  ok : Bool
  attempts : Nat
  sleepTotal : Nat
  msgs : List EmailMsg
deriving DecidableEq

/-- `send_email` (lines 273-342), entered at an arbitrary `retry_count`.
`outcome n` is the transport outcome of the attempt whose `retry_count` is
`n`; `fsAttach n` is the attachment file state read on that attempt
(`none` when no path was given or the file does not exist).  The message is
rebuilt from scratch on every attempt, as the recursive call re-enters the
function.  On an authentication error the function returns `False` at once;
on any other error it sleeps `RETRY_DELAY` and retries while
`retry_count < MAX_RETRIES`, and returns `False` once retries are
exhausted. -/
def sendEmailAux (outcome : Nat → SendOutcome) (fsAttach : Nat → Option FileData)
    (emailFrom emailTo title content : String) (hasAttachPath : Bool)
    (retry_count : Nat) : SendResult :=
  let msg := buildMsg emailFrom emailTo title content
    (if hasAttachPath then fsAttach retry_count else none)
  match outcome retry_count with
  | SendOutcome.success => ⟨true, 1, 0, [msg]⟩
  | SendOutcome.authError => ⟨false, 1, 0, [msg]⟩
  | SendOutcome.otherError =>
    if _h : retry_count < MAX_RETRIES then
      let r := sendEmailAux outcome fsAttach emailFrom emailTo title content
        hasAttachPath (retry_count + 1)
      ⟨r.ok, r.attempts + 1, r.sleepTotal + RETRY_DELAY, msg :: r.msgs⟩
    else ⟨false, 1, 0, [msg]⟩
termination_by MAX_RETRIES - retry_count
decreasing_by omega

/-- `send_email` as called by the script, with the default
`retry_count = 0`. -/
def send_email (outcome : Nat → SendOutcome) (fsAttach : Nat → Option FileData)
    (emailFrom emailTo title content : String) (hasAttachPath : Bool) :
    SendResult :=
  sendEmailAux outcome fsAttach emailFrom emailTo title content hasAttachPath 0

/-- `handle_pdf_mode` line 377: the over-limit decision on the zip size. -/
def is_large_file (zipBytes : Nat) : Bool :=
  decide (ATTACH_LIMIT_MB * 10 < get_file_size_deciMB zipBytes)

/-! ### `scan_files` and `create_pdf_zip` over an explicit directory listing

A scanned directory is given as `Option (List SrcFile)`: `none` when the
directory does not exist, otherwise the recursive list of the files below
it, each with its path relative to that directory. -/

/-- One file under the scanned directory. -/
structure SrcFile where
  relPath : String
  size : Nat
deriving DecidableEq

/-- `Path.name`: the last path component. -/
def fileBasename (f : SrcFile) : String :=
  (strSplitOnChar '/' f.relPath).getLast?.getD ""

/-- Whether `rglob ("*." ++ ext)` matches the file: its base name ends in a
dot and the extension, at any depth. -/
def matchesRglob (f : SrcFile) (ext : String) : Bool :=
  strEndsWith (fileBasename f) ("." ++ ext)

/-- The file sits directly in the scanned directory (its relative path has a
single component). -/
def isTopLevel (f : SrcFile) : Bool :=
  !(f.relPath.data.contains '/')

/-- Whether the non-recursive `glob ("*." ++ ext)` of the directory matches
the file: same name pattern, but only at the top level. -/
def matchesTopGlob (f : SrcFile) (ext : String) : Bool :=
  isTopLevel f && strEndsWith f.relPath ("." ++ ext)

/-- The dictionary `scan_files` builds per file: path, name, and rounded
size. -/
structure FileInfo where
  path : String
  name : String
  size_deciMB : Nat
deriving DecidableEq

/-- FileInfo construction in `scan_files` (lines 64-69). -/
def mkFileInfo (f : SrcFile) : FileInfo :=
  ⟨f.relPath, fileBasename f, get_file_size_deciMB f.size⟩

/-- Order in which `sorted` lists the matches of one pattern. -/
def fileLe (a b : SrcFile) : Prop :=
  pathLe a.relPath b.relPath = true

instance : DecidableRel fileLe := fun a b =>
  inferInstanceAs (Decidable (pathLe a.relPath b.relPath = true))

instance : IsTotal SrcFile fileLe :=
  ⟨fun a b => by
    unfold fileLe pathLe
    generalize a.relPath.data = x
    generalize b.relPath.data = y
    induction x generalizing y with
    | nil => exact Or.inl rfl
    | cons c cs ih =>
      cases y with
      | nil => exact Or.inr rfl
      | cons d ds =>
        rcases Nat.lt_trichotomy c.toNat d.toNat with h | h | h
        · exact Or.inl (by simp [charListLe, h])
        · have h1 : ¬ c.toNat < d.toNat := by omega
          have h2 : ¬ d.toNat < c.toNat := by omega
          simpa [charListLe, h1, h2] using ih ds
        · exact Or.inr (by simp [charListLe, h])⟩

instance : IsTrans SrcFile fileLe :=
  ⟨fun a b c hab hbc => by
    unfold fileLe pathLe at *
    have key : ∀ (x y z : List Char), charListLe x y = true →
        charListLe y z = true → charListLe x z = true := by
      intro x
      induction x with
      | nil => intro y z _ _; rfl
      | cons cx xs ih =>
        intro y z hxy hyz
        cases y with
        | nil => simp [charListLe] at hxy
        | cons cy ys =>
          cases z with
          | nil => simp [charListLe] at hyz
          | cons cz zs =>
            simp only [charListLe] at hxy hyz ⊢
            by_cases h1 : cx.toNat < cy.toNat <;>
              by_cases h2 : cy.toNat < cz.toNat
            · simp [show cx.toNat < cz.toNat by omega]
            · by_cases h3 : cz.toNat < cy.toNat
              · simp [h2, h3] at hyz
              · simp [show cx.toNat < cz.toNat by omega]
            · by_cases h4 : cy.toNat < cx.toNat
              · simp [h1, h4] at hxy
              · simp [show cx.toNat < cz.toNat by omega]
            · by_cases h4 : cy.toNat < cx.toNat
              · simp [h1, h4] at hxy
              · by_cases h3 : cz.toNat < cy.toNat
                · simp [h2, h3] at hyz
                · have hxz1 : ¬ cx.toNat < cz.toNat := by omega
                  have hxz2 : ¬ cz.toNat < cx.toNat := by omega
                  simp [h1, h4] at hxy
                  simp [h2, h3] at hyz
                  simp [hxz1, hxz2]
                  exact ih ys zs hxy hyz
    exact key _ _ _ hab hbc⟩

/-- `scan_files` (lines 53-71): empty for a missing directory; otherwise,
for each extension in order, the matching files sorted by path, all
concatenated. -/
def scan_files (fs : Option (List SrcFile)) (exts : List String) :
    List FileInfo :=
  match fs with
  | none => []
  | some files =>
    (exts.map fun ext =>
      (List.insertionSort fileLe
        (files.filter fun f => matchesRglob f ext)).map mkFileInfo).flatten

/-- The externally visible filesystem actions of `create_pdf_zip`. -/
inductive ZipAction
  | removeOld
  | makeArchive
deriving DecidableEq

/-- `create_pdf_zip` (lines 146-170) with explicit failure injection for the
three statements inside its `try` block (`os.remove`, `make_archive`, the
size query on the fresh archive).  Returns the boolean result and the
actions that reached the filesystem: a raising step performs no action. -/
def create_pdf_zip (fs : Option (List SrcFile))
    (outExists removeRaises archiveRaises sizeRaises : Bool) :
    Bool × List ZipAction :=
  match fs with
  | none => (false, [])
  | some files =>
    if (files.filter fun f => matchesTopGlob f "pdf").isEmpty then (false, [])
    else if outExists && removeRaises then (false, [])
    else
      let acts := if outExists then [ZipAction.removeOld] else []
      if archiveRaises then (false, acts)
      else if sizeRaises then (false, acts ++ [ZipAction.makeArchive])
      else (true, acts ++ [ZipAction.makeArchive])

/-! ### `get_album_info` -/

/-- The album-name heuristic of `get_album_info` (lines 96-118), as a pure
function of the directory base name. -/
def findAtitleIdx (dir_parts : List String) : Option Nat :=
  match dir_parts.findIdx? (fun part =>
      strStartsWith part "A" && strContainsSub (strToLower part) "title") with
  | some i => some i
  | none =>
    (dir_parts.findIdx? (fun part => strStartsWith part "Aauthor")).map (· + 1)

/-- Album name extraction: split the directory name on underscores, look for
a title marker, and if the marker index is truthy (Python `if atitle_index`,
so index 0 counts as not found) and in range, join the segments from the
marker on, dropping those that start with P; otherwise keep the raw
directory name. -/
def extractAlbumName (dir_name : String) : String :=
  let dir_parts := strSplitOnChar '_' dir_name
  match findAtitleIdx dir_parts with
  | none => dir_name
  | some idx =>
    if idx ≠ 0 ∧ idx < dir_parts.length then
      let album_name_parts :=
        (dir_parts.drop idx).filter fun p => !(strStartsWith p "P")
      if album_name_parts.isEmpty then dir_name
      else strJoin "_" album_name_parts
    else dir_name

/-- One entry below a candidate album directory, as `rglob '*'` yields it:
both plain files and directories appear, distinguished by `isDir`. -/
structure AlbumEntry where
  name : String
  size : Nat
  isDir : Bool
deriving DecidableEq

/-- One direct child of the download root, as `iterdir` yields it, together
with the entries `rglob '*'` finds below it. -/
structure FsChild where
  name : String
  isDir : Bool
  size : Nat
  descendants : List AlbumEntry
deriving DecidableEq

/-- The dictionary `get_album_info` builds per album. -/
structure AlbumInfo where
  name : String
  image_count : Nat
  total_size_deciMB : Nat
  dir_path : String
deriving DecidableEq

/-- The image extensions recognised by `get_album_info` (line 82). -/
def image_extensions : List String :=
  [".jpg", ".jpeg", ".png", ".webp"]

/-- The filter on line 91: the lowered `Path.suffix` of the entry name is an
image extension.  Note it inspects only the name, not the entry kind. -/
def isImageName (name : String) : Bool :=
  image_extensions.contains (strToLower (pySuffix name))

/-- The loop body of `get_album_info` (lines 85-129): a direct child of the
root yields an album when it is a directory and some entry below it has an
image-named suffix; the count and total size are taken over the
image-named entries. -/
def albumFromChild (c : FsChild) : Option AlbumInfo :=
  if !c.isDir then none
  else
    let image_files := c.descendants.filter fun e => isImageName e.name
    if image_files.isEmpty then none
    else some ⟨extractAlbumName c.name, image_files.length,
      pyRoundDiv ((image_files.map (fun e => e.size)).sum * 10)
        (1024 * 1024), c.name⟩

/-- `get_album_info` (lines 74-143): empty for a missing root; otherwise one
album per direct subdirectory whose descendants include an entry with an
image extension, plus, when that list is empty but the root itself has
image-named children, a single synthetic root album. -/
def get_album_info (baseExists : Bool) (baseDir : String)
    (children : List FsChild) : List AlbumInfo :=
  if !baseExists then []
  else
    let album_list := children.filterMap albumFromChild
    let root_images := children.filter fun c => isImageName c.name
    if !root_images.isEmpty && album_list.isEmpty then
      album_list ++ [⟨"根目录本子", root_images.length,
        pyRoundDiv ((root_images.map (fun c => c.size)).sum * 10)
          (1024 * 1024), baseDir⟩]
    else album_list

/-! ### `main` and the process exit code -/

/-- `main` (lines 427-489): every return statement of the function returns
the literal 0, on the missing-configuration path, on the missing-payload
path of PDF mode, and on both the success and the failure branch after the
send. -/
def main_exit (emailFrom emailTo emailPass outputFormat : String)
    (pdfAttachmentFound sendOk : Bool) : Nat :=
  if emailFrom = "" ∨ emailTo = "" ∨ emailPass = "" then 0
  else if outputFormat = "images_only" then
    if sendOk then 0 else 0
  else if !pdfAttachmentFound then 0
  else if sendOk then 0 else 0

/-- The `__main__` guard (lines 492-503): `sys.exit(main())` inside a try
block whose KeyboardInterrupt handler exits 1 and whose generic exception
handler exits 0. -/
def run_script (emailFrom emailTo emailPass outputFormat : String)
    (pdfAttachmentFound sendOk interrupted raisesUncaught : Bool) : Nat :=
  if interrupted then 1
  else if raisesUncaught then 0
  else main_exit emailFrom emailTo emailPass outputFormat
    pdfAttachmentFound sendOk

/-! ## Theorems -/

/-- Claim C1: the over-limit decision is strict.  `is_large_file` holds
exactly when the rounded size strictly exceeds the 45 MB limit; the message
built by `send_email` carries the attachment exactly when the rounded size
is at most the limit, so a payload exactly at the limit (such as 45.0 MB)
is attached and any payload above it is not. -/
theorem claim_C1 (zipBytes : Nat) (eF eT t c : String) (fd : FileData) :
    (is_large_file zipBytes = true ↔
        ATTACH_LIMIT_MB * 10 < get_file_size_deciMB zipBytes)
      ∧ ((buildMsg eF eT t c (some fd)).attachment = some fd ↔
          get_file_size_deciMB fd.size ≤ ATTACH_LIMIT_MB * 10)
      ∧ (get_file_size_deciMB fd.size = ATTACH_LIMIT_MB * 10 →
          (buildMsg eF eT t c (some fd)).attachment = some fd)
      ∧ (is_large_file fd.size = true →
          (buildMsg eF eT t c (some fd)).attachment = none) := by
  by_cases h : get_file_size_deciMB fd.size ≤ ATTACH_LIMIT_MB * 10
  · refine ⟨by simp [is_large_file], by simp [buildMsg, h], ?_, ?_⟩
    · intro _; simp [buildMsg, h]
    · intro hl
      simp only [is_large_file, decide_eq_true_eq] at hl
      omega
  · refine ⟨by simp [is_large_file], by simp [buildMsg, h], ?_, ?_⟩
    · intro he; omega
    · intro _; simp [buildMsg, h]

/-- Witness for C1: a 45.0 MB payload (47185920 bytes round to exactly
450 tenths of MB) is attached, while 47300000 bytes round to 451 tenths,
count as large, and are not attached. -/
theorem claim_C1_witness :
    get_file_size_deciMB 47185920 = ATTACH_LIMIT_MB * 10
      ∧ (buildMsg "f" "t" "s" "c" (some ⟨"z", "", 47185920⟩)).attachment
          = some ⟨"z", "", 47185920⟩
      ∧ is_large_file 47300000 = true
      ∧ (buildMsg "f" "t" "s" "c" (some ⟨"z", "", 47300000⟩)).attachment
          = none :=
  ⟨by decide, (claim_C1 0 "f" "t" "s" "c" _).2.2.1 (by decide), by decide,
   (claim_C1 0 "f" "t" "s" "c" _).2.2.2 (by decide)⟩

/-- Claim C2: when every attempt fails with a non-authentication transport
error, `send_email` returns False (it always returns a boolean, so no
exception reaches the caller), makes exactly MAX_RETRIES + 1 attempts, and
sleeps RETRY_DELAY between each pair of consecutive attempts, for a total
of MAX_RETRIES * RETRY_DELAY. -/
theorem claim_C2 (outcome : Nat → SendOutcome) (fsAttach : Nat → Option FileData)
    (eF eT t c : String) (ha : Bool)
    (hfail : ∀ n, outcome n = SendOutcome.otherError) :
    (send_email outcome fsAttach eF eT t c ha).ok = false
      ∧ (send_email outcome fsAttach eF eT t c ha).attempts = MAX_RETRIES + 1
      ∧ (send_email outcome fsAttach eF eT t c ha).sleepTotal
          = MAX_RETRIES * RETRY_DELAY := by
  have h0 := hfail 0
  have h1 := hfail 1
  simp [send_email, sendEmailAux, h0, h1, MAX_RETRIES, RETRY_DELAY]

/-- Witness for C2: an oracle that fails every attempt with a generic
transport error. -/
theorem claim_C2_witness :
    (send_email (fun _ => SendOutcome.otherError) (fun _ => none)
        "f" "t" "T" "C" false).ok = false
      ∧ (send_email (fun _ => SendOutcome.otherError) (fun _ => none)
          "f" "t" "T" "C" false).attempts = MAX_RETRIES + 1
      ∧ (send_email (fun _ => SendOutcome.otherError) (fun _ => none)
          "f" "t" "T" "C" false).sleepTotal = MAX_RETRIES * RETRY_DELAY :=
  claim_C2 _ _ _ _ _ _ _ (fun _ => rfl)

/-- Claim C3: an SMTP authentication error makes `send_email` return False
immediately, with a single attempt and no retry delay, whatever the current
retry count is. -/
theorem claim_C3 (outcome : Nat → SendOutcome) (fsAttach : Nat → Option FileData)
    (eF eT t c : String) (ha : Bool) (retry_count : Nat)
    (hauth : outcome retry_count = SendOutcome.authError) :
    (sendEmailAux outcome fsAttach eF eT t c ha retry_count).ok = false
      ∧ (sendEmailAux outcome fsAttach eF eT t c ha retry_count).attempts = 1
      ∧ (sendEmailAux outcome fsAttach eF eT t c ha retry_count).sleepTotal
          = 0 := by
  simp [sendEmailAux, hauth]

/-- Witness for C3: an oracle that reports an authentication failure on the
first attempt. -/
theorem claim_C3_witness :
    (sendEmailAux (fun _ => SendOutcome.authError) (fun _ => none)
        "f" "t" "T" "C" false 0).ok = false
      ∧ (sendEmailAux (fun _ => SendOutcome.authError) (fun _ => none)
          "f" "t" "T" "C" false 0).attempts = 1
      ∧ (sendEmailAux (fun _ => SendOutcome.authError) (fun _ => none)
          "f" "t" "T" "C" false 0).sleepTotal = 0 :=
  claim_C3 _ _ _ _ _ _ _ 0 rfl

/-- Counterexample to C4 as stated: the message is rebuilt from the
filesystem on every attempt, so when the attachment file content changes
between the first attempt and the retry, the retry transmits a different
MIME message.  Concretely: the first attempt fails with a transport error
while the file holds bytes v1, the retry sees bytes v2, and the two built
messages differ. -/
theorem claim_C4_counterexample :
    ((send_email (fun n => if n = 0 then SendOutcome.otherError else SendOutcome.success)
        (fun n => if n = 0 then some ⟨"a.zip", "v1", 10⟩ else some ⟨"a.zip", "v2", 10⟩)
        "f" "t" "T" "C" true).msgs.length = 2)
      ∧ (send_email (fun n => if n = 0 then SendOutcome.otherError else SendOutcome.success)
          (fun n => if n = 0 then some ⟨"a.zip", "v1", 10⟩ else some ⟨"a.zip", "v2", 10⟩)
          "f" "t" "T" "C" true).msgs[0]?
        ≠ (send_email (fun n => if n = 0 then SendOutcome.otherError else SendOutcome.success)
            (fun n => if n = 0 then some ⟨"a.zip", "v1", 10⟩ else some ⟨"a.zip", "v2", 10⟩)
            "f" "t" "T" "C" true).msgs[1]? := by
  have hev : (send_email (fun n => if n = 0 then SendOutcome.otherError else SendOutcome.success)
      (fun n => if n = 0 then some ⟨"a.zip", "v1", 10⟩ else some ⟨"a.zip", "v2", 10⟩)
      "f" "t" "T" "C" true).msgs
      = [buildMsg "f" "t" "T" "C" (some ⟨"a.zip", "v1", 10⟩),
         buildMsg "f" "t" "T" "C" (some ⟨"a.zip", "v2", 10⟩)] := by
    simp [send_email, sendEmailAux, MAX_RETRIES]
  rw [hev]
  exact ⟨rfl, by decide⟩

/-- Claim C4 (amended): the message is rebuilt from the same title, content
and attachment path on every attempt; whenever the attachment file state is
the same at every attempt (in particular when nothing touches the file
between attempts), every attempt transmits the identical message. -/
theorem claim_C4 (outcome : Nat → SendOutcome) (fsAttach : Nat → Option FileData)
    (eF eT t c : String) (ha : Bool)
    (hconst : ∀ n, fsAttach n = fsAttach 0) :
    ∀ m ∈ (send_email outcome fsAttach eF eT t c ha).msgs,
      m = buildMsg eF eT t c (if ha then fsAttach 0 else none) := by
  have h1 := hconst 1
  cases hout0 : outcome 0 <;> cases hout1 : outcome 1 <;>
    simp_all [send_email, sendEmailAux, MAX_RETRIES]

/-- Witness for C4: with a constant filesystem, both messages of an
exhausted retry run are the one built from the initial file state. -/
theorem claim_C4_witness :
    ((send_email (fun _ => SendOutcome.otherError)
        (fun _ => some ⟨"a.zip", "v", 10⟩) "f" "t" "T" "C" true).msgs.all
      fun m => decide
        (m = buildMsg "f" "t" "T" "C" (some ⟨"a.zip", "v", 10⟩))) = true := by
  rw [List.all_eq_true]
  intro m hm
  have h := claim_C4 (fun _ => SendOutcome.otherError)
    (fun _ => some ⟨"a.zip", "v", 10⟩) "f" "t" "T" "C" true (fun _ => rfl) m hm
  simp [h]

/-- Claim C5: the code contradicts the claimed extraction rule when the
title marker is the very first segment.  The guard
`if atitle_index and atitle_index < len(dir_parts)` treats index 0 as
falsy, although the search initialises the index to None and tests
`is None` elsewhere, so index 0 clearly means found.  For the directory
name Atitle_Foo_P1 the marker is found at index 0, yet the raw directory
name is returned instead of the join Atitle_Foo; the same name with a
leading extra segment shows the reconstruction working at index 1. -/
theorem claim_C5_bug :
    findAtitleIdx (strSplitOnChar '_' "Atitle_Foo_P1") = some 0
      ∧ extractAlbumName "Atitle_Foo_P1" = "Atitle_Foo_P1"
      ∧ extractAlbumName "X_Atitle_Foo_P1" = "Atitle_Foo" := by
  decide

/-- Claim C8: the process exit code is 0 on every normal completion path,
including missing configuration and a failed send, 0 on an uncaught
top-level exception, and 1 exactly when the run is interrupted by the
user. -/
theorem claim_C8 (emailFrom emailTo emailPass outputFormat : String)
    (pdfAttachmentFound sendOk interrupted raisesUncaught : Bool) :
    run_script emailFrom emailTo emailPass outputFormat pdfAttachmentFound
        sendOk interrupted raisesUncaught
      = (if interrupted then 1 else 0) := by
  cases interrupted <;> cases raisesUncaught <;> cases sendOk <;>
    cases pdfAttachmentFound <;> simp [run_script, main_exit]

/-- Counterexample to C6 as stated: with more than one extension the groups
are sorted individually and concatenated in extension order, so the whole
returned sequence is not sorted by path.  Scanning files a.txt and b.pdf
for the extensions pdf then txt returns b.pdf before a.txt. -/
theorem claim_C6_counterexample :
    ¬ List.Pairwise (fun x y : FileInfo => pathLe x.path y.path = true)
        (scan_files (some [⟨"a.txt", 0⟩, ⟨"b.pdf", 0⟩]) ["pdf", "txt"]) := by
  intro h
  have hev : scan_files (some [⟨"a.txt", 0⟩, ⟨"b.pdf", 0⟩]) ["pdf", "txt"]
      = [⟨"b.pdf", "b.pdf", 0⟩, ⟨"a.txt", "a.txt", 0⟩] := by decide
  rw [hev] at h
  have hle := (List.pairwise_cons.mp h).1 ⟨"a.txt", "a.txt", 0⟩ (by simp)
  exact absurd hle (by decide)

/-- Claim C6 (amended): a missing root yields the empty list; for a single
extension (the only shape the script uses) the result contains exactly one
FileInfo per matching file and is sorted by path as a whole.  With several
extensions the result is the concatenation of the per-extension sorted
groups, which need not be globally sorted (see the counterexample). -/
theorem claim_C6 (files : List SrcFile) (ext : String) (exts : List String) :
    scan_files none exts = []
      ∧ List.Perm (scan_files (some files) [ext])
          ((files.filter fun f => matchesRglob f ext).map mkFileInfo)
      ∧ List.Pairwise (fun x y : FileInfo => pathLe x.path y.path = true)
          (scan_files (some files) [ext]) := by
  refine ⟨rfl, ?_, ?_⟩
  · simp only [scan_files, List.map_cons, List.map_nil, List.flatten_cons,
      List.flatten_nil, List.append_nil]
    exact (List.perm_insertionSort fileLe _).map mkFileInfo
  · simp only [scan_files, List.map_cons, List.map_nil, List.flatten_cons,
      List.flatten_nil, List.append_nil]
    exact List.Pairwise.map mkFileInfo (fun a b h => h)
      (List.sorted_insertionSort fileLe _)

/-- Claim C7: `create_pdf_zip` returns failure and performs no filesystem
action when the directory is missing or holds no top-level pdf; when it
proceeds with an existing archive at the target it removes the old archive
first and builds the new one second; and a raise in any executed step of
the try block yields a False return instead of a propagated exception. -/
theorem claim_C7 (files : List SrcFile)
    (outExists removeRaises archiveRaises sizeRaises : Bool) :
    create_pdf_zip none outExists removeRaises archiveRaises sizeRaises
        = (false, [])
      ∧ ((files.filter fun f => matchesTopGlob f "pdf").isEmpty = true →
          create_pdf_zip (some files) outExists removeRaises archiveRaises
            sizeRaises = (false, []))
      ∧ ((files.filter fun f => matchesTopGlob f "pdf").isEmpty = false →
          create_pdf_zip (some files) true false false false
            = (true, [ZipAction.removeOld, ZipAction.makeArchive]))
      ∧ (((outExists && removeRaises) || archiveRaises || sizeRaises) = true →
          (create_pdf_zip (some files) outExists removeRaises archiveRaises
            sizeRaises).1 = false) := by
  refine ⟨rfl, ?_, ?_, ?_⟩
  · intro h; simp [create_pdf_zip, h]
  · intro h; simp [create_pdf_zip, h]
  · intro h
    cases outExists <;> cases removeRaises <;> cases archiveRaises <;>
      cases sizeRaises <;>
      by_cases hE : (files.filter fun f => matchesTopGlob f "pdf").isEmpty
        = true <;>
      simp_all [create_pdf_zip] <;> split <;> rfl

/-- Witness for C7: an empty directory listing is rejected; a single
top-level pdf with a stale archive gives remove-then-build; an injected
compression failure gives a False return. -/
theorem claim_C7_witness :
    create_pdf_zip (some ([] : List SrcFile)) false false false false
        = (false, [])
      ∧ create_pdf_zip (some [(⟨"a.pdf", 5⟩ : SrcFile)]) true false false false
          = (true, [ZipAction.removeOld, ZipAction.makeArchive])
      ∧ (create_pdf_zip (some [(⟨"a.pdf", 5⟩ : SrcFile)]) true false true
          false).1 = false :=
  ⟨(claim_C7 [] false false false false).2.1 (by decide),
   (claim_C7 [⟨"a.pdf", 5⟩] true false false false).2.2.1 (by decide),
   (claim_C7 [⟨"a.pdf", 5⟩] true false true false).2.2.2 (by decide)⟩

/-- Every album produced by the loop body counts at least one image-named
entry. -/
theorem albumFromChild_image_count (c : FsChild) (a : AlbumInfo)
    (h : albumFromChild c = some a) : 1 ≤ a.image_count := by
  unfold albumFromChild at h
  by_cases hd : c.isDir = true
  · simp only [hd, Bool.not_true, Bool.false_eq_true, if_false] at h
    by_cases he : (c.descendants.filter fun e => isImageName e.name).isEmpty
        = true
    · simp [he] at h
    · rw [Bool.not_eq_true] at he
      simp only [he, Bool.false_eq_true, if_false, Option.some_inj] at h
      have hne : c.descendants.filter (fun e => isImageName e.name) ≠ [] := by
        simpa [List.isEmpty_iff] using he
      have hpos := List.length_pos.mpr hne
      rw [← h]
      simpa using hpos
  · rw [Bool.not_eq_true] at hd
    simp [hd] at h

/-- Counterexample to C9 as stated: the filter on line 91 checks only the
suffix of the entry name, and `rglob` also yields directories, so a
subdirectory whose only descendant is a directory named x.jpg produces an
AlbumInfo although it contains no image file at all. -/
theorem claim_C9_counterexample :
    (get_album_info true "base" [⟨"alb", true, 0, [⟨"x.jpg", 7, true⟩]⟩]).length
        = 1
      ∧ ([(⟨"x.jpg", 7, true⟩ : AlbumEntry)].filter fun e =>
          !e.isDir && isImageName e.name).isEmpty = true := by
  decide

/-- Claim C9 (amended): every AlbumInfo returned by `get_album_info` comes
from at least one entry whose name carries an image extension (a file or a
directory), and therefore always has image_count at least 1. -/
theorem claim_C9 (baseExists : Bool) (baseDir : String)
    (children : List FsChild) :
    ∀ a ∈ get_album_info baseExists baseDir children, 1 ≤ a.image_count := by
  intro a ha
  unfold get_album_info at ha
  cases baseExists with
  | false => simp at ha
  | true =>
    simp only [Bool.not_true, Bool.false_eq_true, if_false] at ha
    split at ha
    case isTrue hcond =>
      rcases List.mem_append.mp ha with h1 | h2
      · obtain ⟨c, _, hc⟩ := List.mem_filterMap.mp h1
        exact albumFromChild_image_count c a hc
      · have ha2 : a = ⟨"根目录本子",
            (children.filter fun c => isImageName c.name).length,
            pyRoundDiv
              (((children.filter fun c => isImageName c.name).map
                (fun c => c.size)).sum * 10) (1024 * 1024), baseDir⟩ := by
          simpa using h2
        rw [Bool.and_eq_true] at hcond
        obtain ⟨hne, -⟩ := hcond
        have hnil : children.filter (fun c => isImageName c.name) ≠ [] := by
          simpa [List.isEmpty_iff] using hne
        have hpos := List.length_pos.mpr hnil
        rw [ha2]
        simpa using hpos
    case isFalse =>
      obtain ⟨c, _, hc⟩ := List.mem_filterMap.mp ha
      exact albumFromChild_image_count c a hc

/-- Witness for C9: a directory with one jpg file yields its album, whose
image count is 1. -/
theorem claim_C9_witness :
    1 ≤ (AlbumInfo.mk "alb" 1 0 "alb").image_count :=
  claim_C9 true "base" [⟨"alb", true, 0, [⟨"p.jpg", 3, false⟩]⟩]
    ⟨"alb", 1, 0, "alb"⟩ (by decide)

/-- Claim C10: the scanner matches recursively while the archive builder
checks emptiness only at the top level.  For an existing directory whose
pdf files all sit strictly below the top level, `scan_files` returns a
non-empty list while `create_pdf_zip` returns False and touches nothing. -/
theorem claim_C10 (files : List SrcFile)
    (outExists removeRaises archiveRaises sizeRaises : Bool)
    (hsome : ∃ f ∈ files, matchesRglob f "pdf" = true)
    (htop : ∀ f ∈ files, matchesTopGlob f "pdf" = false) :
    scan_files (some files) ["pdf"] ≠ []
      ∧ (create_pdf_zip (some files) outExists removeRaises archiveRaises
          sizeRaises).1 = false
      ∧ (create_pdf_zip (some files) outExists removeRaises archiveRaises
          sizeRaises).2 = [] := by
  have hfilter : (files.filter fun f => matchesTopGlob f "pdf") = [] :=
    List.filter_eq_nil_iff.mpr (by simpa using htop)
  refine ⟨?_, by simp [create_pdf_zip, hfilter], by simp [create_pdf_zip, hfilter]⟩
  obtain ⟨f, hf, hm⟩ := hsome
  have hmem : f ∈ files.filter fun g => matchesRglob g "pdf" :=
    List.mem_filter.mpr ⟨hf, hm⟩
  intro hnil
  simp only [scan_files, List.map_cons, List.map_nil, List.flatten_cons,
    List.flatten_nil, List.append_nil] at hnil
  rw [List.map_eq_nil_iff] at hnil
  have : (files.filter fun g => matchesRglob g "pdf") = [] :=
    ((List.perm_insertionSort fileLe _).symm.trans (hnil ▸ List.Perm.refl _)).eq_nil
  rw [this] at hmem
  exact absurd hmem (List.not_mem_nil f)

/-- Witness for C10: a single pdf inside a subdirectory. -/
theorem claim_C10_witness :
    scan_files (some [(⟨"sub/a.pdf", 5⟩ : SrcFile)]) ["pdf"] ≠ []
      ∧ (create_pdf_zip (some [(⟨"sub/a.pdf", 5⟩ : SrcFile)]) true false false
          false).1 = false
      ∧ (create_pdf_zip (some [(⟨"sub/a.pdf", 5⟩ : SrcFile)]) true false false
          false).2 = [] :=
  claim_C10 [⟨"sub/a.pdf", 5⟩] true false false false
    ⟨⟨"sub/a.pdf", 5⟩, by decide, by decide⟩ (by decide)

end SendEmailPdf
